import Mathlib

/-!
Verification of the AlpacaTrading-Bot decision-and-lifecycle engine.

Shallow embedding of the core modules:
  * `config/settings.py`  — strategy / risk constants;
  * `risk/manager.py`     — position sizing and exit checks;
  * `strategy/momentum.py`— composite momentum signal;
  * `options/selector.py` — option contract ranking and selection;
  * `trading/position_tracker.py` — position lifecycle tracking.

Modelling conventions:
  * Python floats are modelled as `ℚ`; datetimes as rational day counts
    (so `datetime.date()` is `Int.floor` and `timedelta.days` is the floor
    of the difference, matching Python's floor-division semantics).
  * Code that can raise is modelled with `Except String`; `None` as `Option`.
  * A Python "position" is either a `dict` or an attribute-style object;
    both are modelled by `Position` with a `kind` tag.  `dict.get` returns
    the optional field; `getattr(obj, f, d)` returns the field or default;
    `getattr(dict_instance, f, d)` returns `d` (plain dicts carry no such
    attributes); calling `.get` on an attribute-style object raises
    `AttributeError`.
  * Python's `x or y` evaluates truthiness of `x` (`None`, `0`, `""` are
    falsy), which the `py*` helpers reproduce.
-/

/-! ## config/settings.py (constants used by the core) -/

def RSI_PERIOD : ℕ := 14
def RSI_OVERSOLD : ℚ := 30
def RSI_OVERBOUGHT : ℚ := 70
def MACD_FAST : ℕ := 12
def MACD_SLOW : ℕ := 26
def MACD_SIGNAL : ℕ := 9
def EMA_FAST : ℕ := 9
def EMA_SLOW : ℕ := 21
def VOLUME_MA_DAYS : ℕ := 20
def VOLUME_CONFIRM_MULTIPLIER : ℚ := 3 / 2
def SIGNAL_THRESHOLD : ℤ := 1
def MAX_POSITION_PCT : ℚ := 10
def STOP_LOSS_PCT : ℚ := 15
def TAKE_PROFIT_PCT : ℚ := 20
def MAX_HOLD_DAYS : ℤ := 5

/-! ## Python-semantics helpers -/

/-- Python `int(q)`: truncation toward zero. -/
def pyInt (q : ℚ) : ℤ := if 0 ≤ q then ⌊q⌋ else -⌊-q⌋

/-- Python `a or b` on an optional number, where a present `0` is falsy. -/
def pyOrQ (a : Option ℚ) (b : Option ℚ) : Option ℚ :=
  match a with
  | some v => if v = 0 then b else some v
  | none => b

/-- Python `a or b` on an optional string, where a present `""` is falsy. -/
def pyOrStr (a : Option String) (b : Option String) : Option String :=
  match a with
  | some v => if v = "" then b else some v
  | none => b

/-! ## risk/manager.py — data model for positions -/

/-- A stored `opened_at` value: a parseable ISO datetime (as a rational day
count) or a non-empty string that `datetime.fromisoformat` rejects. -/
inductive OpenedVal where
  | dtv (t : ℚ)
  | badStr
deriving DecidableEq

/-- Whether the record is a plain `dict` or an attribute-style object. -/
inductive PosKind where
  | dict
  | obj
deriving DecidableEq

/-- A broker position record.  Each field is `none` when the key/attribute
is absent. -/
structure Position where
  kind : PosKind
  cost_basis : Option ℚ := none
  market_value : Option ℚ := none
  qty : Option ℚ := none
  symbol : Option String := none
  current_price : Option ℚ := none
  opened_at : Option OpenedVal := none
deriving DecidableEq

/-! ## risk/manager.py — functions -/

/-- `calculate_position_size`.  The configured cap `MAX_POSITION_PCT` is
taken as an explicit first argument (the Python reads it from settings,
where it is set to 10). -/
def calculate_position_size (max_position_pct : ℚ)
    (account_value option_price : ℚ) : ℤ :=
  if account_value ≤ 0 ∨ option_price ≤ 0 then 0
  else
    let max_dollars := account_value * (max_position_pct / 100)
    let cost_per_contract := option_price * 100
    if cost_per_contract ≤ 0 then 0
    else max 0 (pyInt (max_dollars / cost_per_contract))

/-- `_position_entry_value`.  Python precedence makes the line
`getattr(...) or position.get("cost_basis") if isinstance(position, dict)
else None` evaluate to `None` for a non-dict record, so an attribute-style
object always yields cost `None` and the function returns `0.0`.  For a
dict, `getattr` on the dict instance is `None` (falsy), so the result is
`position.get("cost_basis")`, defaulting to `0.0` when missing. -/
def position_entry_value (p : Position) : ℚ :=
  match p.kind with
  | .dict => (p.cost_basis).getD 0
  | .obj => 0

/-- `_position_current_value`. -/
def position_current_value (p : Position) : ℚ :=
  match p.kind with
  | .dict => (pyOrQ none p.market_value).getD 0
  | .obj => (pyOrQ p.market_value none).getD 0

/-- `_is_option_symbol`: `len(s) > 12 and ("C" in s or "P" in s)`. -/
def is_option_symbol (s : String) : Bool :=
  decide (12 < s.length) && (s.contains 'C' || s.contains 'P')

/-- `_position_entry_price`.  Raise points (modelled as `.error`):
`position.get("qty", 0)` on an attribute-style object whose `qty`
attribute is absent or falsy, and the eagerly-evaluated default
`position.get("symbol", "")` passed to `getattr` when an attribute-style
object does have a `symbol` attribute (`hasattr` is true, and evaluating
the default argument raises before `getattr` runs). -/
def position_entry_price (p : Position) : Except String ℚ :=
  let cost := position_entry_value p
  let qraw : Except String ℚ :=
    match p.kind with
    | .dict => .ok (p.qty.getD 0)
    | .obj =>
      match p.qty with
      | some v => if v = 0 then .error "AttributeError: get" else .ok v
      | none => .error "AttributeError: get"
  match qraw with
  | .error e => .error e
  | .ok q =>
    let qty := |q|
    if qty ≤ 0 then .ok 0
    else
      let symE : Except String String :=
        match p.kind with
        | .dict => .ok (p.symbol.getD "")
        | .obj =>
          match p.symbol with
          | some _ => .error "AttributeError: get"
          | none => .ok ""
      match symE with
      | .error e => .error e
      | .ok sym =>
        if is_option_symbol sym then .ok (cost / (qty * 100))
        else .ok (cost / qty)

/-- `_position_current_price`. -/
def position_current_price (p : Position) : ℚ :=
  match p.kind with
  | .dict => (pyOrQ none p.current_price).getD 0
  | .obj => (pyOrQ p.current_price none).getD 0

/-- `check_stop_loss`. -/
def check_stop_loss (p : Position) (current_price : Option ℚ) :
    Except String Bool :=
  match position_entry_price p with
  | .error e => .error e
  | .ok entry =>
    if entry ≤ 0 then .ok false
    else
      let current := current_price.getD (position_current_price p)
      if current ≤ 0 then .ok false
      else .ok (decide (100 * (current - entry) / entry ≤ -STOP_LOSS_PCT))

/-- `check_take_profit`. -/
def check_take_profit (p : Position) (current_price : Option ℚ) :
    Except String Bool :=
  match position_entry_price p with
  | .error e => .error e
  | .ok entry =>
    if entry ≤ 0 then .ok false
    else
      let current := current_price.getD (position_current_price p)
      if current ≤ 0 then .ok false
      else .ok (decide (TAKE_PROFIT_PCT ≤ 100 * (current - entry) / entry))

/-- `check_max_hold_time`.  `now` is `datetime.utcnow()`.  The same
Python-precedence quirk as in `_position_entry_value` makes the stored
`opened_at` visible only for dict records; a `fromisoformat` failure
returns `False`. -/
def check_max_hold_time (p : Position) (open_date : Option ℚ) (now : ℚ) :
    Bool :=
  match open_date with
  | some t => decide (MAX_HOLD_DAYS ≤ ⌊now - t⌋)
  | none =>
    match p.kind with
    | .obj => false
    | .dict =>
      match p.opened_at with
      | some (.dtv t) => decide (MAX_HOLD_DAYS ≤ ⌊now - t⌋)
      | some .badStr => false
      | none => false

/-- `should_exit`: the if-chain over the three checks, an exception in a
check propagating to the caller. -/
def should_exit (p : Position) (current_price open_date : Option ℚ)
    (now : ℚ) : Except String (Bool × String) :=
  match check_stop_loss p current_price with
  | .error e => .error e
  | .ok true => .ok (true, "stop_loss")
  | .ok false =>
    match check_take_profit p current_price with
    | .error e => .error e
    | .ok true => .ok (true, "take_profit")
    | .ok false =>
      if check_max_hold_time p open_date now then .ok (true, "max_hold_time")
      else .ok (false, "")

/-! ## strategy/momentum.py — data model

Bar frames are modelled as lists of bars carrying a close and a volume
value, plus a flag for whether the `volume` column is present.  The
`pandas_ta` indicator functions are external-library collaborators: they
are abstracted as an oracle record `TA`; every use of their output in the
strategy code is embedded faithfully, including the places where a raise
could occur. -/

structure Bar where
  close : ℚ
  volume : ℚ
deriving DecidableEq

structure Df where
  bars : List Bar
  hasVolume : Bool := true
deriving DecidableEq

def closes (df : Df) : List ℚ := df.bars.map Bar.close

/-- Result frame of `ta.macd`: named columns over `nrows` rows (pandas
keeps all columns of one frame aligned; `MacdAligned` states it). -/
structure MacdDf where
  nrows : ℕ
  cols : List (String × List ℚ)
deriving DecidableEq

def MacdDf.isEmptyDf (m : MacdDf) : Bool := m.nrows == 0 || m.cols.isEmpty

def colNames (m : MacdDf) : List String := m.cols.map Prod.fst

def getCol (m : MacdDf) (n : String) : Option (List ℚ) :=
  (m.cols.find? (fun c => c.1 == n)).map Prod.snd

/-- The `pandas_ta` oracle: `rsi`, `macd`, `ema` as abstract functions. -/
structure TA where
  rsi : List ℚ → ℕ → Option (List ℚ)
  macd : List ℚ → ℕ → ℕ → ℕ → Option MacdDf
  ema : List ℚ → ℕ → Option (List ℚ)

/-- Python `needle in hay` for strings (substring containment). -/
def strContainsSub (needle hay : String) : Bool :=
  hay.data.tails.any (fun t => needle.data.isPrefixOf t)

/-- Python `s.lower()`. -/
def pyLower (s : String) : String := s.map Char.toLower

/-- Python `f"{q:.1f}"` one-decimal formatting, abstracted to a total
textual rendering (no claim inspects these strings). -/
def pyFmt1 (q : ℚ) : String := toString q

/-! ## strategy/momentum.py — sub-signals -/

/-- `_rsi_signal`. -/
def rsi_signal (ta : TA) (df : Df) : ℤ × List String :=
  if df.bars.length < RSI_PERIOD + 2 then (0, [])
  else
    match ta.rsi (closes df) RSI_PERIOD with
    | none => (0, [])
    | some r =>
      if r.length < 2 then (0, [])
      else
        let curr := r.getLastD 0
        let prev := r.dropLast.getLastD 0
        if prev ≤ RSI_OVERSOLD ∧ RSI_OVERSOLD < curr then
          (1, ["RSI crossed above 30 (bullish)"])
        else if RSI_OVERBOUGHT ≤ prev ∧ curr < RSI_OVERBOUGHT then
          (-1, ["RSI crossed below 70 (bearish)"])
        else if RSI_OVERSOLD < curr ∧ curr < RSI_OVERBOUGHT then (0, [])
        else if curr ≤ RSI_OVERSOLD then
          (1, ["RSI at oversold " ++ pyFmt1 curr ++ " (bullish)"])
        else (-1, ["RSI at overbought " ++ pyFmt1 curr ++ " (bearish)"])

/-- The primary MACD-line column filter:
`"MACD_" in c and "h" not in c.lower() and "s" not in c.lower()`. -/
def macdLineCols (m : MacdDf) : List String :=
  (colNames m).filter (fun c =>
    strContainsSub "MACD_" c && !((pyLower c).contains 'h')
      && !((pyLower c).contains 's'))

/-- The primary signal-line column filter:
`"MACD" in c and ("s_" in c or "signal" in c.lower())`. -/
def macdSigCols (m : MacdDf) : List String :=
  (colNames m).filter (fun c =>
    strContainsSub "MACD" c
      && (strContainsSub "s_" c || strContainsSub "signal" (pyLower c)))

/-- The column choice of `_macd_signal`: the primary filters and, when
either is empty, the fallback filters, whose `macd_col[0]` raises
IndexError when the fallback MACD-line filter is also empty. -/
def macdPick (m : MacdDf) : Except String (List String × List String) :=
  if (macdLineCols m).isEmpty || (macdSigCols m).isEmpty then
    match (colNames m).filter (fun c =>
        c.startsWith "MACD" && !(c.endsWith "_h") && !(c.endsWith "_s")) with
    | [] => .error "IndexError: macd_col is empty"
    | c0 :: rest =>
      .ok (c0 :: rest,
        (colNames m).filter (fun c => strContainsSub "MACD" c && c ≠ c0))
  else .ok (macdLineCols m, macdSigCols m)

/-- The cross classification of `_macd_signal` from the last two points of
the MACD line and signal line. -/
def macdCross (prev_m curr_m prev_s curr_s : ℚ) : ℤ × List String :=
  if prev_m ≤ prev_s ∧ curr_s < curr_m then
    (1, ["MACD crossed above signal (bullish)"])
  else if prev_s ≤ prev_m ∧ curr_m < curr_s then
    (-1, ["MACD crossed below signal (bearish)"])
  else (0, [])

/-- `_macd_signal`.  Raise points: the fallback's `macd_col[0]` when the
fallback filter is empty (IndexError), and `iloc[-1]` / `iloc[-2]` on a
selected column shorter than 2 (impossible for aligned frames). -/
def macd_signal (ta : TA) (df : Df) : Except String (ℤ × List String) :=
  if df.bars.length < MACD_SLOW + MACD_SIGNAL + 2 then .ok (0, [])
  else
    match ta.macd (closes df) MACD_FAST MACD_SLOW MACD_SIGNAL with
    | none => .ok (0, [])
    | some m =>
      if m.isEmptyDf || m.nrows < 2 then .ok (0, [])
      else
        match macdPick m with
        | .error e => .error e
        | .ok ([], _) => .ok (0, [])
        | .ok (_, []) => .ok (0, [])
        | .ok (m0 :: _, s0 :: _) =>
          match getCol m m0, getCol m s0 with
          | some ml, some sl =>
            match ml.getLast?, ml.dropLast.getLast?,
                sl.getLast?, sl.dropLast.getLast? with
            | some curr_m, some prev_m, some curr_s, some prev_s =>
              .ok (macdCross prev_m curr_m prev_s curr_s)
            | _, _, _, _ => .error "IndexError: iloc"
          | _, _ => .error "KeyError: column"

/-- `_ema_signal`. -/
def ema_signal (ta : TA) (df : Df) : ℤ × List String :=
  if df.bars.length < EMA_SLOW + 2 then (0, [])
  else
    match ta.ema (closes df) EMA_FAST, ta.ema (closes df) EMA_SLOW with
    | some ef, some es =>
      if ef.length < 2 ∨ es.length < 2 then (0, [])
      else
        let f_curr := ef.getLastD 0
        let f_prev := ef.dropLast.getLastD 0
        let s_curr := es.getLastD 0
        let s_prev := es.dropLast.getLastD 0
        if f_prev ≤ s_prev ∧ s_curr < f_curr then
          (1, ["EMA9 crossed above EMA21 (bullish)"])
        else if s_prev ≤ f_prev ∧ f_curr < s_curr then
          (-1, ["EMA9 crossed below EMA21 (bearish)"])
        else (0, [])
    | _, _ => (0, [])

/-- `_volume_confirmed`.  `vol.iloc[-21:-1]` is the 20-entry window
preceding the last bar; pandas `mean` divides by the window length. -/
def volume_confirmed (df : Df) : Bool :=
  if !df.hasVolume || df.bars.length < VOLUME_MA_DAYS + 1 then false
  else
    let vol := df.bars.map Bar.volume
    let current := vol.getLastD 0
    let window := (vol.dropLast).drop (vol.dropLast.length - VOLUME_MA_DAYS)
    let avg := window.sum / (window.length : ℚ)
    if avg ≤ 0 then true
    else decide (VOLUME_CONFIRM_MULTIPLIER * avg ≤ current)

/-! ## strategy/momentum.py — composite signal -/

structure Signal where
  symbol : String
  signal : String
  score : ℤ
  reasons : List String
deriving DecidableEq

def insufficientSignal (symbol : String) : Signal :=
  ⟨symbol, "NO_TRADE", 0, ["Insufficient bar data"]⟩

/-- `four_hr_bars if four_hr_bars is not None and len(four_hr_bars) >= 20
else daily_bars`. -/
def primaryOf (daily_bars four_hr_bars : Option Df) : Option Df :=
  match four_hr_bars with
  | some d => if 20 ≤ d.bars.length then some d else daily_bars
  | none => daily_bars

/-- `calculate_signals`. -/
def calculate_signals (ta : TA) (symbol : String)
    (daily_bars four_hr_bars : Option Df) : Except String Signal :=
  match primaryOf daily_bars four_hr_bars with
  | none => .ok (insufficientSignal symbol)
  | some df =>
    if df.bars.length < 10 then .ok (insufficientSignal symbol)
    else
      let vol_ok := volume_confirmed df
      let r := rsi_signal ta df
      match macd_signal ta df with
      | .error e => .error e
      | .ok mc =>
        let e := ema_signal ta df
        let reasons := (r.2 ++ mc.2 ++ e.2)
          ++ (if vol_ok then []
              else ["Volume below confirmation threshold (signal not blocked)"])
        let score := r.1 + mc.1 + e.1
        let sig :=
          if SIGNAL_THRESHOLD ≤ score then "BUY_CALL"
          else if score ≤ -SIGNAL_THRESHOLD then "BUY_PUT"
          else "NO_TRADE"
        .ok ⟨symbol, sig, score, reasons⟩

/-- All columns of a `ta.macd` result frame have the frame's row count —
true of every pandas frame. -/
def MacdAligned (m : MacdDf) : Prop :=
  ∀ c ∈ m.cols, (Prod.snd c).length = m.nrows

/-- Well-behavedness of the `pandas_ta` oracle, as guaranteed by the
library: MACD frames are aligned and carry the standard column names
`MACD_f_s_g` / `MACDh_f_s_g` / `MACDs_f_s_g`, so the primary column
filters are non-empty. -/
def TA.Wf (ta : TA) : Prop :=
  ∀ xs f s g m, ta.macd xs f s g = some m →
    MacdAligned m ∧ macdLineCols m ≠ [] ∧ macdSigCols m ≠ []

/-! ## options/selector.py

The candidate chain is the result of the (external) chain-retrieval
collaborator, so it enters as an input: `none` models a `None`/failed
retrieval.  Candidate rows are dict-like; a field is `none` when the key
is missing (or holds `None`). -/

structure OptRow where
  bid : Option ℚ := none
  ask : Option ℚ := none
  openInterest : Option ℚ := none
  volume : Option ℚ := none
  strike : Option ℚ := none
  delta : Option ℚ := none
  gamma : Option ℚ := none
  theta : Option ℚ := none
  vega : Option ℚ := none
  impliedVolatility : Option ℚ := none
  contractSymbol : Option String := none
  contract_symbol : Option String := none
  expiration : Option String := none
deriving DecidableEq

/-- `_option_type_from_signal`. -/
def option_type_from_signal (signal : String) : String :=
  if signal = "BUY_CALL" then "call" else "put"

/-- `_spread_score`: `float(row.get("bid", 0) or 0)` collapses a missing
bid (or a falsy one) to `0`. -/
def spread_score (row : OptRow) : ℚ :=
  let bid := row.bid.getD 0
  let ask := row.ask.getD 0
  if ask ≤ 0 then 1
  else
    let mid := (bid + ask) / 2
    if mid ≤ 0 then 1
    else (ask - bid) / mid

/-- `_liquidity_score`: `int(row.get("openInterest", 0) or 0)` etc. -/
def liquidity_score (row : OptRow) : ℤ :=
  pyInt (row.openInterest.getD 0) + pyInt (row.volume.getD 0) * 2

/-- The pandas `sort_values(by=["_liq", "_spread"],
ascending=[False, True])` comparison: liquidity descending first, then
spread ascending. -/
def rankLe (a b : OptRow) : Bool :=
  decide (liquidity_score b < liquidity_score a)
    || (liquidity_score a == liquidity_score b
        && decide (spread_score a ≤ spread_score b))

/-- Insertion into a sorted list (model of the pandas sort). -/
def sortInsert {α : Type} (le : α → α → Bool) (x : α) : List α → List α
  | [] => [x]
  | y :: ys => if le x y then x :: y :: ys else y :: sortInsert le x ys

/-- Comparison sort modelling `DataFrame.sort_values` (any comparison
sort agrees with it on the ordering of rows with distinct keys). -/
def sortRows {α : Type} (le : α → α → Bool) : List α → List α
  | [] => []
  | x :: xs => sortInsert le x (sortRows le xs)

structure Greeks where
  delta : Option ℚ
  gamma : Option ℚ
  theta : Option ℚ
  vega : Option ℚ
  iv : Option ℚ
deriving DecidableEq

structure SelectedContract where
  symbol : Option String
  underlying : String
  strike : Option ℚ
  expiration : String
  option_type : String
  estimated_cost : ℚ
  bid : ℚ
  ask : ℚ
  greeks : Greeks
  open_interest : Option ℚ
deriving DecidableEq

/-- The result dict built from the winning row `best`. -/
def buildSelected (symbol option_type : String) (best : OptRow) :
    SelectedContract :=
  let ask := best.ask.getD 0
  let bid := best.bid.getD 0
  let est_cost := if 0 < ask then ask else if 0 < bid then bid else 0
  ⟨pyOrStr best.contractSymbol best.contract_symbol, symbol, best.strike,
    best.expiration.getD "", option_type, est_cost, bid, ask,
    ⟨best.delta, best.gamma, best.theta, best.vega,
      best.impliedVolatility⟩,
    best.openInterest⟩

/-- `select_option`.  `account_value` is accepted but unused, as in the
source. -/
def select_option (symbol signal_type : String) (account_value : ℚ)
    (chain : Option (List OptRow)) : Option SelectedContract :=
  if signal_type ≠ "BUY_CALL" ∧ signal_type ≠ "BUY_PUT" then none
  else
    let option_type := option_type_from_signal signal_type
    match chain with
    | none => none
    | some rows =>
      if rows.isEmpty then none
      else
        match sortRows rankLe rows with
        | [] => none
        | best :: _ => some (buildSelected symbol option_type best)

/-! ## trading/position_tracker.py

The persisted open-date store is the in-memory dict `_position_open_dates`
(mirrored to disk); it is modelled as an association list.  The
order-execution collaborator `close_position` is an oracle
`closeOk : Position → Bool`.  The whole loop body runs inside
`try/except`, so a raise while handling one position aborts the pass and
returns the actions accumulated so far with the store as it stands. -/

abbrev Store := List (String × ℚ)

def storeLookup (st : Store) (sym : String) : Option ℚ :=
  (st.find? (fun e => e.1 == sym)).map Prod.snd

/-- `_position_open_dates.pop(sym, None)` followed by a save. -/
def storeErase (st : Store) (sym : String) : Store :=
  st.filter (fun e => e.1 ≠ sym)

structure TrackAction where
  symbol : String
  action : String
  reason : String
deriving DecidableEq

/-- `sym = p.get("symbol") or getattr(p, "symbol", None)`; raises
`AttributeError` for an attribute-style record (`p.get`). -/
def trackSym (p : Position) : Except String (Option String) :=
  match p.kind with
  | .dict => .ok (pyOrStr p.symbol none)
  | .obj => .error "AttributeError: get"

/-- `current_price = p.get("current_price") or getattr(p, "current_price",
None)`. -/
def trackCurrentPrice (p : Position) : Except String (Option ℚ) :=
  match p.kind with
  | .dict => .ok (pyOrQ p.current_price none)
  | .obj => .error "AttributeError: get"

/-- Resolution of `open_date`: the local store first, then a timestamp on
the broker record (for a dict, a parseable `opened_at` value; a parse
failure is swallowed by `pass`).  Attribute-style records never reach this
point (they raise at the symbol lookup). -/
def resolvedOpenDate (st : Store) (sym : String) (p : Position) :
    Option ℚ :=
  match storeLookup st sym with
  | some t => some t
  | none =>
    match p.kind with
    | .obj => none
    | .dict =>
      match p.opened_at with
      | some (.dtv t) => some t
      | some .badStr => none
      | none => none

/-- The exit block: call the exit decider, and on a true decision with a
non-empty reason request a close; only on success record the action and
drop the symbol from the store. -/
def exitPhase
    (exitFn : Position → Option ℚ → Option ℚ → Except String (Bool × String))
    (closeOk : Position → Bool) (st : Store) (p : Position) (sym : String)
    (cp od : Option ℚ) : Except String (Option TrackAction × Store) :=
  match exitFn p cp od with
  | .error e => .error e
  | .ok r =>
    if r.1 && !(r.2 == "") then
      if closeOk p then .ok (some ⟨sym, "close", r.2⟩, storeErase st sym)
      else .ok (none, st)
    else .ok (none, st)

/-- The body of the `for p in positions` loop of `track_positions`, for
one position.  `today` is `datetime.now(_tz).date()`. -/
def trackStep
    (exitFn : Position → Option ℚ → Option ℚ → Except String (Bool × String))
    (closeOk : Position → Bool) (today : ℤ) (st : Store) (p : Position) :
    Except String (Option TrackAction × Store) :=
  match trackSym p with
  | .error e => .error e
  | .ok none => .ok (none, st)
  | .ok (some sym) =>
    match trackCurrentPrice p with
    | .error e => .error e
    | .ok cp =>
      match resolvedOpenDate st sym p with
      | some t =>
        if ⌊t⌋ = today then .ok (none, st)
        else exitPhase exitFn closeOk st p sym cp (some t)
      | none => exitPhase exitFn closeOk st p sym cp none

/-- The tracking loop over the broker position list; a raise aborts the
pass (outer `except`), returning the actions taken so far. -/
def trackGo
    (exitFn : Position → Option ℚ → Option ℚ → Except String (Bool × String))
    (closeOk : Position → Bool) (today : ℤ) :
    List Position → Store → List TrackAction → List TrackAction × Store
  | [], st, acc => (acc.reverse, st)
  | p :: ps, st, acc =>
    match trackStep exitFn closeOk today st p with
    | .error _ => (acc.reverse, st)
    | .ok (none, st2) => trackGo exitFn closeOk today ps st2 acc
    | .ok (some a, st2) => trackGo exitFn closeOk today ps st2 (a :: acc)

/-- `track_positions`, with the risk manager's `should_exit` as the exit
decider (`now` is `datetime.utcnow()` used inside `check_max_hold_time`). -/
def track_positions (closeOk : Position → Bool) (today : ℤ) (now : ℚ)
    (positions : List Position) (st : Store) :
    List TrackAction × Store :=
  trackGo (fun p cp od => should_exit p cp od now) closeOk today
    positions st []

/-! ## Claims -/

/-- Helper: the value of `should_exit` as the first-triggered check in
the fixed order stop-loss, take-profit, max-hold, given that the two
price checks evaluate without raising. -/
theorem should_exit_spec (p : Position) (cp od : Option ℚ)
    (now : ℚ) (b1 b2 : Bool)
    (h1 : check_stop_loss p cp = .ok b1)
    (h2 : check_take_profit p cp = .ok b2) :
    should_exit p cp od now = .ok
      (if b1 then (true, "stop_loss")
       else if b2 then (true, "take_profit")
       else if check_max_hold_time p od now then (true, "max_hold_time")
       else (false, "")) := by
  unfold should_exit
  rw [h1]
  cases b1 with
  | true => rfl
  | false =>
    rw [h2]
    cases b2 with
    | true => rfl
    | false =>
      simp only [Bool.false_eq_true, if_false]
      split <;> rfl

/-- C1: `should_exit` evaluates its exit conditions in the fixed priority
order stop-loss, take-profit, max-hold, and returns the first triggered
reason; when none of the three checks trigger it returns the no-exit
decision `(false, "")`.  In particular, whenever the stop-loss check is
true the result is `(true, "stop_loss")` regardless of the take-profit
check. -/
theorem C1_should_exit_priority (p : Position) (cp od : Option ℚ)
    (now : ℚ) (b1 b2 : Bool)
    (h1 : check_stop_loss p cp = .ok b1)
    (h2 : check_take_profit p cp = .ok b2) :
    should_exit p cp od now = .ok
      (if b1 then (true, "stop_loss")
       else if b2 then (true, "take_profit")
       else if check_max_hold_time p od now then (true, "max_hold_time")
       else (false, "")) :=
  should_exit_spec p cp od now b1 b2 h1 h2

/-- Concrete position for C1's witness: a dict record, entry price 100. -/
def posC1 : Position := ⟨.dict, some 100, none, some 1, none, none, none⟩

/-- C1 witness: entry 100, current 84 (16% loss, stop at 15%) exits with
reason `stop_loss`, evaluated before take-profit. -/
theorem C1_witness :
    should_exit posC1 (some 84) none 0 = .ok (true, "stop_loss") := by
  have h1 : check_stop_loss posC1 (some 84) = .ok true := by
    simp only [check_stop_loss, position_entry_price, position_entry_value,
      posC1, is_option_symbol, position_current_price, STOP_LOSS_PCT]
    norm_num
  have h2 : check_take_profit posC1 (some 84) = .ok false := by
    simp only [check_take_profit, position_entry_price, position_entry_value,
      posC1, is_option_symbol, position_current_price, TAKE_PROFIT_PCT]
    norm_num
  have h := C1_should_exit_priority posC1 (some 84) none 0 true false h1 h2
  simpa using h

/-- C2: `calculate_position_size` returns 0 when the account value or
premium is non-positive, and otherwise floors
`(account_value * cap/100) / (premium * 100)` with no rounding up and a
non-negative result; at account 10000, premium 5 and a 20 cap the result
is 4 (see the witness). -/
theorem C2_position_size (cap account_value option_price : ℚ)
    (hcap : 0 ≤ cap) :
    (account_value ≤ 0 ∨ option_price ≤ 0 →
      calculate_position_size cap account_value option_price = 0) ∧
    (0 < account_value → 0 < option_price →
      calculate_position_size cap account_value option_price
          = ⌊account_value * (cap / 100) / (option_price * 100)⌋ ∧
        0 ≤ calculate_position_size cap account_value option_price) := by
  constructor
  · intro h
    unfold calculate_position_size
    rw [if_pos]
    rcases h with h | h
    · exact Or.inl h
    · exact Or.inr h
  · intro ha hp
    have hguard : ¬(account_value ≤ 0 ∨ option_price ≤ 0) := by
      push_neg; exact ⟨ha, hp⟩
    have hval : (0:ℚ) ≤ account_value * (cap / 100) / (option_price * 100) := by
      apply div_nonneg
      · exact mul_nonneg ha.le (by positivity)
      · positivity
    have hcost : ¬(option_price * 100 ≤ (0:ℚ)) := by
      push_neg; positivity
    constructor
    · unfold calculate_position_size
      rw [if_neg hguard, if_neg hcost]
      unfold pyInt
      rw [if_pos hval]
      have hfl : (0:ℤ) ≤ ⌊account_value * (cap / 100) / (option_price * 100)⌋ :=
        Int.floor_nonneg.mpr hval
      omega
    · unfold calculate_position_size
      rw [if_neg hguard, if_neg hcost]
      exact le_max_left 0 _

/-- C7 (amended): a non-positive (or missing, hence 0) entry price or
current price makes the stop-loss and take-profit checks vacuously false,
but the max-hold check does not read prices at all, so `should_exit` then
returns exactly the max-hold decision — `(true, "max_hold_time")` when the
hold cap is reached, and the no-exit decision otherwise. -/
theorem C7_price_guards (p : Position) (cp od : Option ℚ) (now e : ℚ)
    (he : position_entry_price p = .ok e)
    (h : e ≤ 0 ∨ cp.getD (position_current_price p) ≤ 0) :
    check_stop_loss p cp = .ok false ∧
    check_take_profit p cp = .ok false ∧
    should_exit p cp od now =
      .ok (if check_max_hold_time p od now then (true, "max_hold_time")
           else (false, "")) := by
  have h1 : check_stop_loss p cp = .ok false := by
    unfold check_stop_loss
    rw [he]
    dsimp only
    rcases h with h | h
    · rw [if_pos h]
    · by_cases he0 : e ≤ 0
      · rw [if_pos he0]
      · rw [if_neg he0, if_pos h]
  have h2 : check_take_profit p cp = .ok false := by
    unfold check_take_profit
    rw [he]
    dsimp only
    rcases h with h | h
    · rw [if_pos h]
    · by_cases he0 : e ≤ 0
      · rw [if_pos he0]
      · rw [if_neg he0, if_pos h]
  refine ⟨h1, h2, ?_⟩
  have h3 := should_exit_spec p cp od now false false h1 h2
  simpa using h3

/-- C2 witness: account 10000, premium 5, 20-percent cap ⇒ 4 contracts
(2000 max dollars / 500 per contract). -/
theorem C2_witness : calculate_position_size 20 10000 5 = 4 := by
  have h := (C2_position_size 20 10000 5 (by norm_num)).2
    (by norm_num) (by norm_num)
  rw [h.1]
  norm_num

/-- Concrete dict position for C7: no `cost_basis` (entry price 0), held
10 days. -/
def posC7 : Position := ⟨.dict, none, none, some 1, none, none, some (.dtv 0)⟩

/-- C7 counterexample: a position whose derived entry price is 0 — so the
claim says every check, the max-hold check included, is vacuously false —
nevertheless exits with reason `max_hold_time` (opened 10 days before
`now`, cap 5). -/
theorem C7_counterexample :
    position_entry_price posC7 = .ok 0 ∧
    should_exit posC7 (some 10) none 10 = .ok (true, "max_hold_time") := by
  constructor
  · simp [position_entry_price, position_entry_value, posC7, is_option_symbol]
  · simp [should_exit, check_stop_loss, check_take_profit,
      check_max_hold_time, position_entry_price, position_entry_value,
      posC7, is_option_symbol, position_current_price, MAX_HOLD_DAYS]

/-- C7 witness: at entry price 0 the price checks return false and
`should_exit` reduces to the max-hold decision. -/
theorem C7_witness :
    check_stop_loss posC7 (some 10) = .ok false ∧
    check_take_profit posC7 (some 10) = .ok false ∧
    should_exit posC7 (some 10) none 3 =
      .ok (if check_max_hold_time posC7 none 3 then (true, "max_hold_time")
           else (false, "")) := by
  refine C7_price_guards posC7 (some 10) none 3 0 ?_ (Or.inl le_rfl)
  simp [position_entry_price, position_entry_value, posC7, is_option_symbol]

/-- Helper for C10: an attribute-style record's derived entry price, when
it evaluates at all, is 0 (its derived entry value is always 0). -/
theorem obj_entry_price_eq_zero (p : Position) (hk : p.kind = .obj)
    (e : ℚ) (he : position_entry_price p = .ok e) : e = 0 := by
  obtain ⟨k, cb, mv, q, sy, cpx, oa⟩ := p
  cases hk
  unfold position_entry_price position_entry_value at he
  dsimp only at he
  cases q with
  | none => exact absurd he (by simp)
  | some v =>
    dsimp only at he
    by_cases hv : v = 0
    · rw [if_pos hv] at he
      exact absurd he (by simp)
    · rw [if_neg hv] at he
      dsimp only at he
      by_cases hq : |v| ≤ 0
      · rw [if_pos hq] at he
        exact ((Except.ok.injEq _ _).mp he).symm
      · rw [if_neg hq] at he
        cases sy with
        | some s => exact absurd he (by simp)
        | none =>
          dsimp only at he
          rw [show is_option_symbol "" = false from rfl] at he
          simp only [Bool.false_eq_true, if_false, zero_div,
            Except.ok.injEq] at he
          exact he.symm

/-- C10 (amended): for every attribute-style position record the derived
entry value is 0 even when the record carries a `cost_basis` attribute;
consequently, whenever the stop-loss or take-profit check completes
without raising it returns false (the checks raise `AttributeError` when
the record's `qty` attribute is absent or zero, or when the record has a
`symbol` attribute, because `position.get` is called on the object), and
whenever `should_exit` completes its decision is the max-hold decision
alone. -/
theorem C10_obj_records (p : Position) (hk : p.kind = .obj) :
    position_entry_value p = 0 ∧
    (∀ cp b, check_stop_loss p cp = .ok b → b = false) ∧
    (∀ cp b, check_take_profit p cp = .ok b → b = false) ∧
    (∀ cp od now r, should_exit p cp od now = .ok r →
      r = (if check_max_hold_time p od now then (true, "max_hold_time")
           else (false, ""))) := by
  have hev : position_entry_value p = 0 := by
    unfold position_entry_value; rw [hk]
  have hsl : ∀ cp b, check_stop_loss p cp = .ok b → b = false := by
    intro cp b hb
    unfold check_stop_loss at hb
    cases hpe : position_entry_price p with
    | error e => rw [hpe] at hb; exact absurd hb (by simp)
    | ok e =>
      have he0 : e = 0 := obj_entry_price_eq_zero p hk e hpe
      rw [hpe, he0] at hb
      simp only [le_refl, if_pos] at hb
      exact ((Except.ok.injEq _ _).mp hb).symm
  have htp : ∀ cp b, check_take_profit p cp = .ok b → b = false := by
    intro cp b hb
    unfold check_take_profit at hb
    cases hpe : position_entry_price p with
    | error e => rw [hpe] at hb; exact absurd hb (by simp)
    | ok e =>
      have he0 : e = 0 := obj_entry_price_eq_zero p hk e hpe
      rw [hpe, he0] at hb
      simp only [le_refl, if_pos] at hb
      exact ((Except.ok.injEq _ _).mp hb).symm
  refine ⟨hev, hsl, htp, ?_⟩
  intro cp od now r hr
  unfold should_exit at hr
  cases hs : check_stop_loss p cp with
  | error e => rw [hs] at hr; exact absurd hr (by simp)
  | ok b1 =>
    have hb1 : b1 = false := hsl cp b1 hs
    rw [hs, hb1] at hr
    cases ht : check_take_profit p cp with
    | error e => rw [ht] at hr; exact absurd hr (by simp)
    | ok b2 =>
      have hb2 : b2 = false := htp cp b2 ht
      rw [ht, hb2] at hr
      dsimp only at hr
      split at hr
      next hcond =>
        rw [if_pos hcond]
        exact ((Except.ok.injEq _ _).mp hr).symm
      next hcond =>
        rw [if_neg hcond]
        exact ((Except.ok.injEq _ _).mp hr).symm

/-- Concrete attribute-style record with `cost_basis`, non-zero `qty` and
a `symbol` attribute. -/
def posC10 : Position :=
  ⟨.obj, some 500, none, some 5, some "AAPL", none, none⟩

/-- C10 counterexample: for this attribute-style record the derived entry
value is 0 as claimed, but the stop-loss check does not return false — it
raises `AttributeError` (the eagerly evaluated `position.get("symbol",
"")` default), so the checks do not "always return false". -/
theorem C10_counterexample :
    position_entry_value posC10 = 0 ∧
    check_stop_loss posC10 (some 50) = .error "AttributeError: get" := by
  constructor
  · rfl
  · simp [check_stop_loss, position_entry_price, position_entry_value,
      posC10]
    norm_num

/-- Concrete attribute-style record with non-zero `qty` and no `symbol`
attribute: the checks complete and return false. -/
def posC10b : Position := ⟨.obj, some 500, none, some 5, none, none, none⟩

/-- C10 witness: the amended statement instantiated at `posC10b`. -/
theorem C10_witness :
    position_entry_value posC10b = 0 ∧
    check_stop_loss posC10b (some 50) = .ok false := by
  have h := C10_obj_records posC10b rfl
  refine ⟨h.1, ?_⟩
  have hev : check_stop_loss posC10b (some 50) = .ok false := by
    simp [check_stop_loss, position_entry_price, position_entry_value,
      posC10b, is_option_symbol]
  obtain ⟨b, hb⟩ : ∃ b, check_stop_loss posC10b (some 50) = .ok b :=
    ⟨false, hev⟩
  have := h.2.1 (some 50) b hb
  rw [this] at hb
  exact hb

/-- C8: in a tracking pass, a position whose resolved open date falls on
the current trading day is skipped entirely — the loop body returns no
action and leaves the store untouched for EVERY exit decider `exitFn`, so
the position is never passed to `should_exit`, regardless of its price
movement. -/
theorem C8_same_day_guard
    (exitFn : Position → Option ℚ → Option ℚ → Except String (Bool × String))
    (closeOk : Position → Bool) (today : ℤ) (st : Store) (p : Position)
    (sym : String) (t : ℚ)
    (hs : trackSym p = .ok (some sym))
    (ht : resolvedOpenDate st sym p = some t)
    (hd : ⌊t⌋ = today) :
    trackStep exitFn closeOk today st p = .ok (none, st) := by
  obtain ⟨k, cb, mv, q, sy, cpx, oa⟩ := p
  cases k with
  | obj => exact absurd hs (by simp [trackSym])
  | dict =>
    unfold trackStep
    rw [hs]
    dsimp only [trackCurrentPrice]
    rw [ht]
    dsimp only
    rw [if_pos hd]

/-- Concrete dict position and store for C8: opened on day 7, tracked on
day 7, with an exit decider that always demands an exit. -/
def posC8 : Position :=
  ⟨.dict, some 100, none, some 1, some "TSLA", some 50, none⟩

def storeC8 : Store := [("TSLA", 7)]

/-- C8 witness: even with an always-exit decider, the same-day position
produces no action and an unchanged store. -/
theorem C8_witness :
    trackStep (fun _ _ _ => .ok (true, "stop_loss")) (fun _ => true) 7
      storeC8 posC8 = .ok (none, storeC8) := by
  refine C8_same_day_guard _ _ 7 storeC8 posC8 "TSLA" 7 ?_ ?_ ?_
  · simp [trackSym, posC8, pyOrStr]
  · simp [resolvedOpenDate, storeLookup, storeC8]
  · norm_num

/-- C9: in a tracking pass, the loop body removes a symbol from the
persisted store and emits a close action only when the close request
succeeds; when it fails (or when no exit triggers, or the position is
skipped) the store is unchanged and no action is recorded, so the
position is re-evaluated on the next pass. -/
theorem C9_close_gating
    (exitFn : Position → Option ℚ → Option ℚ → Except String (Bool × String))
    (closeOk : Position → Bool) (today : ℤ) (st : Store) (p : Position)
    (a : Option TrackAction) (st2 : Store)
    (h : trackStep exitFn closeOk today st p = .ok (a, st2)) :
    (a = none → st2 = st) ∧
    (∀ act, a = some act → closeOk p = true ∧ act.action = "close" ∧
      st2 = storeErase st act.symbol) ∧
    (closeOk p = false → a = none ∧ st2 = st) := by
  unfold trackStep exitPhase at h
  repeat' split at h
  all_goals (try simp_all)
  all_goals
    try
      intro act hact
      obtain ⟨ha, hst⟩ := h
      rw [← ha] at hact
      exact Option.noConfusion hact
  all_goals
    obtain ⟨ha, hst⟩ := h
    subst hst
    constructor
    · intro h0
      rw [← ha] at h0
      exact Option.noConfusion h0
    · intro act hact
      rw [← ha] at hact
      injection hact with hx
      subst hx
      exact ⟨rfl, rfl⟩

/-- Concrete dict position for C9: opened on day 0, evaluated on day 100,
half the entry price (stop-loss fires), with a failing close request. -/
def posC9 : Position :=
  ⟨.dict, some 100, none, some 1, some "NVDA", some 50, none⟩

def storeC9 : Store := [("NVDA", 0)]

/-- C9 witness: when the close request fails, the triggered exit produces
no action and leaves the store unchanged. -/
theorem C9_witness :
    trackStep (fun p cp od => should_exit p cp od 100) (fun _ => false) 100
      storeC9 posC9 = .ok (none, storeC9) ∧ storeC9 = storeC9 := by
  have hstep : trackStep (fun p cp od => should_exit p cp od 100)
      (fun _ => false) 100 storeC9 posC9 = .ok (none, storeC9) := by
    have hse : should_exit posC9 (some 50) (some 0) 100
        = .ok (true, "stop_loss") := by
      have h1 : check_stop_loss posC9 (some 50) = .ok true := by
        have hsym : is_option_symbol "NVDA" = false := by decide
        simp only [check_stop_loss, position_entry_price,
          position_entry_value, posC9, position_current_price,
          STOP_LOSS_PCT, hsym]
        norm_num [hsym]
      unfold should_exit
      rw [h1]
    have hse2 : should_exit
        (⟨.dict, some 100, none, some 1, some "NVDA", some 50, none⟩ :
          Position) (some 50) (some 0) 100 = .ok (true, "stop_loss") := hse
    simp [trackStep, trackSym, posC9, pyOrStr, trackCurrentPrice,
      pyOrQ, resolvedOpenDate, storeLookup, storeC9, exitPhase, hse2]
  exact ⟨hstep, (C9_close_gating _ _ 100 storeC9 posC9 none storeC9
    hstep).1 rfl⟩

/-- Helper: every RSI sub-signal value is −1, 0 or +1. -/
theorem rsi_signal_mem (ta : TA) (df : Df) :
    (rsi_signal ta df).1 = -1 ∨ (rsi_signal ta df).1 = 0 ∨
      (rsi_signal ta df).1 = 1 := by
  unfold rsi_signal
  repeat' split
  all_goals (try simp)
  all_goals (split_ifs <;> simp)

/-- Helper: every EMA sub-signal value is −1, 0 or +1. -/
theorem ema_signal_mem (ta : TA) (df : Df) :
    (ema_signal ta df).1 = -1 ∨ (ema_signal ta df).1 = 0 ∨
      (ema_signal ta df).1 = 1 := by
  unfold ema_signal
  repeat' split
  all_goals (try simp)
  all_goals (split_ifs <;> simp)

/-- Helper: every MACD sub-signal value that evaluates without raising is
−1, 0 or +1. -/
theorem macd_signal_mem (ta : TA) (df : Df) (v : ℤ × List String)
    (h : macd_signal ta df = .ok v) :
    v.1 = -1 ∨ v.1 = 0 ∨ v.1 = 1 := by
  unfold macd_signal macdCross at h
  repeat' split at h
  all_goals simp_all
  all_goals (rw [← h]; simp)

/-- Helper: a name appearing among the column names of a frame selects a
column. -/
theorem getCol_of_mem (m : MacdDf) (n : String) (h : n ∈ colNames m) :
    ∃ l, getCol m n = some l ∧ ∃ c, c ∈ m.cols ∧ c.2 = l := by
  unfold colNames at h
  obtain ⟨c, hc, hn⟩ := List.mem_map.mp h
  have hsome : (m.cols.find? (fun e => e.1 == n)).isSome := by
    rw [List.find?_isSome]
    exact ⟨c, hc, by simp [hn]⟩
  obtain ⟨e, he⟩ := Option.isSome_iff_exists.mp hsome
  exact ⟨e.2, by simp [getCol, he], e, List.mem_of_find?_eq_some he, rfl⟩

/-- Helper: a list with at least 2 elements has a last element and its
`dropLast` has a last element. -/
theorem getLast_pair_of_two_le (l : List ℚ) (h : 2 ≤ l.length) :
    (∃ a, l.getLast? = some a) ∧ ∃ b, l.dropLast.getLast? = some b := by
  constructor
  · have : l ≠ [] := by
      intro he; rw [he] at h; simp at h
    exact Option.isSome_iff_exists.mp (List.getLast?_isSome.mpr this)
  · have : l.dropLast ≠ [] := by
      intro he
      have := congrArg List.length he
      rw [List.length_dropLast] at this
      simp at this
      omega
    exact Option.isSome_iff_exists.mp (List.getLast?_isSome.mpr this)

/-- Helper: for a well-behaved `pandas_ta` oracle the MACD sub-signal
never raises. -/
theorem macd_signal_isOk (ta : TA) (hwf : TA.Wf ta) (df : Df) :
    ∃ v, macd_signal ta df = .ok v := by
  unfold macd_signal
  split
  · exact ⟨(0, []), rfl⟩
  split
  · exact ⟨(0, []), rfl⟩
  next m hm =>
    obtain ⟨hal, hmc, hsc⟩ := hwf _ _ _ _ _ hm
    split
    · exact ⟨(0, []), rfl⟩
    next hne =>
      have h2 : 2 ≤ m.nrows := by
        by_contra hcon
        push_neg at hcon
        exact hne (by simp [hcon])
      have hpick : macdPick m = .ok (macdLineCols m, macdSigCols m) := by
        unfold macdPick
        rw [if_neg]
        simp [List.isEmpty_iff, hmc, hsc]
      rw [hpick]
      cases hmc2 : macdLineCols m with
      | nil => exact absurd hmc2 hmc
      | cons m0 ms =>
        cases hsc2 : macdSigCols m with
        | nil => exact absurd hsc2 hsc
        | cons s0 ss =>
          have hm0 : m0 ∈ colNames m := by
            have hmem : m0 ∈ macdLineCols m := by
              rw [hmc2]; exact List.mem_cons_self _ _
            exact List.mem_of_mem_filter hmem
          have hs0 : s0 ∈ colNames m := by
            have hmem : s0 ∈ macdSigCols m := by
              rw [hsc2]; exact List.mem_cons_self _ _
            exact List.mem_of_mem_filter hmem
          obtain ⟨ml, hml, cml, hcml, hcml2⟩ := getCol_of_mem m m0 hm0
          obtain ⟨sl, hsl, csl, hcsl, hcsl2⟩ := getCol_of_mem m s0 hs0
          have hmll : 2 ≤ ml.length := by
            rw [← hcml2, hal cml hcml]; exact h2
          have hsll : 2 ≤ sl.length := by
            rw [← hcsl2, hal csl hcsl]; exact h2
          obtain ⟨⟨a1, ha1⟩, ⟨a2, ha2⟩⟩ := getLast_pair_of_two_le ml hmll
          obtain ⟨⟨b1, hb1⟩, ⟨b2, hb2⟩⟩ := getLast_pair_of_two_le sl hsll
          dsimp only
          rw [hml, hsl]
          dsimp only
          rw [ha1, ha2, hb1, hb2]
          exact ⟨macdCross a2 a1 b2 b1, rfl⟩

/-- C3: when the primary series is sufficient and the MACD computation
evaluates, the composite score returned by `calculate_signals` is the sum
of the RSI, MACD and EMA sub-signal values, each in {−1, 0, +1} (so the
score lies in −3..3), and the returned direction is BUY_CALL exactly when
score ≥ `SIGNAL_THRESHOLD`, BUY_PUT exactly when score ≤ the symmetric
negative threshold, NO_TRADE otherwise. -/
theorem C3_composite_score (ta : TA) (symbol : String)
    (daily_bars four_hr_bars : Option Df) (df : Df) (sig : Signal)
    (mv : ℤ) (mr : List String)
    (hp : primaryOf daily_bars four_hr_bars = some df)
    (hl : 10 ≤ df.bars.length)
    (hm : macd_signal ta df = .ok (mv, mr))
    (h : calculate_signals ta symbol daily_bars four_hr_bars = .ok sig) :
    sig.score = (rsi_signal ta df).1 + mv + (ema_signal ta df).1 ∧
    ((rsi_signal ta df).1 = -1 ∨ (rsi_signal ta df).1 = 0 ∨
      (rsi_signal ta df).1 = 1) ∧
    (mv = -1 ∨ mv = 0 ∨ mv = 1) ∧
    ((ema_signal ta df).1 = -1 ∨ (ema_signal ta df).1 = 0 ∨
      (ema_signal ta df).1 = 1) ∧
    (-3 ≤ sig.score ∧ sig.score ≤ 3) ∧
    sig.signal = (if SIGNAL_THRESHOLD ≤ sig.score then "BUY_CALL"
      else if sig.score ≤ -SIGNAL_THRESHOLD then "BUY_PUT"
      else "NO_TRADE") := by
  unfold calculate_signals at h
  rw [hp] at h
  dsimp only at h
  rw [if_neg (by omega)] at h
  rw [hm] at h
  dsimp only at h
  have hsig := ((Except.ok.injEq _ _).mp h)
  have hr := rsi_signal_mem ta df
  have he := ema_signal_mem ta df
  have hmv : mv = -1 ∨ mv = 0 ∨ mv = 1 := by
    have := macd_signal_mem ta df (mv, mr) hm
    simpa using this
  subst hsig
  refine ⟨rfl, hr, hmv, he, ?_, rfl⟩
  dsimp only
  rcases hr with h1 | h1 | h1 <;> rcases hmv with h2 | h2 | h2 <;>
    rcases he with h3 | h3 | h3 <;> rw [h1, h2, h3] <;> norm_num

/-- Trivial `pandas_ta` oracle for concrete checks: every indicator
returns `None`. -/
def taC3 : TA := ⟨fun _ _ => none, fun _ _ _ _ => none, fun _ _ => none⟩

def dfC3 : Df := ⟨List.replicate 10 ⟨1, 1⟩, true⟩

def sigC3 : Signal :=
  ⟨"SPY", "NO_TRADE", 0,
    ["Volume below confirmation threshold (signal not blocked)"]⟩

/-- C3 witness: a 10-bar series with the trivial oracle scores 0 and maps
to NO_TRADE. -/
theorem C3_witness :
    sigC3.score = (rsi_signal taC3 dfC3).1 + 0 + (ema_signal taC3 dfC3).1 ∧
    sigC3.signal = (if SIGNAL_THRESHOLD ≤ sigC3.score then "BUY_CALL"
      else if sigC3.score ≤ -SIGNAL_THRESHOLD then "BUY_PUT"
      else "NO_TRADE") := by
  have h := C3_composite_score taC3 "SPY" (some dfC3) none dfC3 sigC3 0 []
    rfl (by simp [dfC3]) rfl rfl
  exact ⟨h.1, h.2.2.2.2.2⟩

/-- C4: under a well-behaved `pandas_ta` oracle, `calculate_signals`
always returns a Signal (never raises); whenever the chosen primary
series (the 4-hour series when it has ≥ 20 bars, else the daily series)
is absent or has fewer than 10 bars, the result is exactly direction
NO_TRADE, score 0, with the single reason "Insufficient bar data". -/
theorem C4_insufficient_data (ta : TA) (symbol : String)
    (daily_bars four_hr_bars : Option Df) (hwf : TA.Wf ta) :
    (∃ sig, calculate_signals ta symbol daily_bars four_hr_bars
      = .ok sig) ∧
    (∀ df, primaryOf daily_bars four_hr_bars = some df →
      df.bars.length < 10 →
      calculate_signals ta symbol daily_bars four_hr_bars
        = .ok ⟨symbol, "NO_TRADE", 0, ["Insufficient bar data"]⟩) ∧
    (primaryOf daily_bars four_hr_bars = none →
      calculate_signals ta symbol daily_bars four_hr_bars
        = .ok ⟨symbol, "NO_TRADE", 0, ["Insufficient bar data"]⟩) := by
  refine ⟨?_, ?_, ?_⟩
  · cases hp : primaryOf daily_bars four_hr_bars with
    | none =>
      refine ⟨insufficientSignal symbol, ?_⟩
      unfold calculate_signals
      rw [hp]
    | some df =>
      by_cases hlen : df.bars.length < 10
      · refine ⟨insufficientSignal symbol, ?_⟩
        unfold calculate_signals
        rw [hp]
        dsimp only
        rw [if_pos hlen]
      · obtain ⟨v, hv⟩ := macd_signal_isOk ta hwf df
        unfold calculate_signals
        rw [hp]
        dsimp only
        rw [if_neg hlen, hv]
        exact ⟨_, rfl⟩
  · intro df hdf hlen
    unfold calculate_signals
    rw [hdf]
    dsimp only
    rw [if_pos hlen]
    rfl
  · intro hp
    unfold calculate_signals
    rw [hp]
    rfl

def dfC4 : Df := ⟨List.replicate 5 ⟨1, 1⟩, true⟩

/-- C4 witness: with no daily series and a 5-bar 4-hour series the chosen
primary is absent and the result is the insufficient-data signal. -/
theorem C4_witness :
    calculate_signals taC3 "QQQ" none (some dfC4)
      = .ok ⟨"QQQ", "NO_TRADE", 0, ["Insufficient bar data"]⟩ := by
  have h := C4_insufficient_data taC3 "QQQ" none (some dfC4)
    (by intro xs f s g m hm; exact Option.noConfusion hm)
  exact h.2.2 rfl

/-- C5 (amended): on a series long enough with no RSI threshold cross
between the previous and current value, the RSI sub-signal classifies by
absolute level: +1 when the current value is at or below the oversold
threshold (30), 0 when it is strictly between the thresholds, and −1 when
it is at or above the overbought threshold (70) — in particular a current
value exactly equal to the overbought threshold yields −1, not 0. -/
theorem C5_rsi_level (ta : TA) (df : Df) (r : List ℚ) (curr prev : ℚ)
    (hlen : RSI_PERIOD + 2 ≤ df.bars.length)
    (hr : ta.rsi (closes df) RSI_PERIOD = some r)
    (hr2 : 2 ≤ r.length)
    (hc : curr = r.getLastD 0) (hpv : prev = r.dropLast.getLastD 0)
    (hnc1 : ¬(prev ≤ RSI_OVERSOLD ∧ RSI_OVERSOLD < curr))
    (hnc2 : ¬(RSI_OVERBOUGHT ≤ prev ∧ curr < RSI_OVERBOUGHT)) :
    (rsi_signal ta df).1 =
      (if curr ≤ RSI_OVERSOLD then 1
       else if curr < RSI_OVERBOUGHT then 0
       else -1) := by
  unfold rsi_signal
  rw [if_neg (by omega), hr]
  dsimp only
  rw [if_neg (by omega)]
  rw [← hc, ← hpv, if_neg hnc1, if_neg hnc2]
  by_cases h1 : curr ≤ RSI_OVERSOLD
  · have h3 : ¬(RSI_OVERSOLD < curr ∧ curr < RSI_OVERBOUGHT) := by
      intro hx
      exact absurd h1 (not_le.mpr hx.1)
    rw [if_neg h3, if_pos h1, if_pos h1]
  · push_neg at h1
    by_cases h2 : curr < RSI_OVERBOUGHT
    · rw [if_pos ⟨h1, h2⟩, if_neg (not_le.mpr h1), if_pos h2]
    · have h3 : ¬(RSI_OVERSOLD < curr ∧ curr < RSI_OVERBOUGHT) :=
        fun hx => h2 hx.2
      rw [if_neg h3, if_neg (not_le.mpr h1), if_neg (not_le.mpr h1),
        if_neg h2]

/-- Oracle for the C5 instances: RSI series ending 50 → 70. -/
def taC5 : TA :=
  ⟨fun _ _ => some [50, 70], fun _ _ _ _ => none, fun _ _ => none⟩

def dfC5 : Df := ⟨List.replicate 16 ⟨1, 1⟩, true⟩

/-- C5 counterexample: previous RSI 50, current exactly 70 — no threshold
cross occurred and the current value is NOT strictly above the overbought
threshold, so the claim predicts 0; the code returns −1. -/
theorem C5_counterexample :
    RSI_PERIOD + 2 ≤ dfC5.bars.length ∧
    taC5.rsi (closes dfC5) RSI_PERIOD = some [50, 70] ∧
    ¬((50:ℚ) ≤ RSI_OVERSOLD ∧ RSI_OVERSOLD < (70:ℚ)) ∧
    ¬(RSI_OVERBOUGHT ≤ (50:ℚ) ∧ (70:ℚ) < RSI_OVERBOUGHT) ∧
    ¬(RSI_OVERBOUGHT < (70:ℚ)) ∧ ¬((70:ℚ) ≤ RSI_OVERSOLD) ∧
    (rsi_signal taC5 dfC5).1 = -1 := by
  refine ⟨by simp [dfC5, RSI_PERIOD], rfl, ?_, ?_, ?_, ?_, by decide⟩
  · norm_num [RSI_OVERSOLD]
  · norm_num [RSI_OVERBOUGHT]
  · norm_num [RSI_OVERBOUGHT]
  · norm_num [RSI_OVERSOLD]

/-- C5 witness: the amended classification applied at previous RSI 50,
current RSI exactly 70: level classification yields −1. -/
theorem C5_witness : (rsi_signal taC5 dfC5).1 = -1 := by
  have h := C5_rsi_level taC5 dfC5 [50, 70] 70 50
    (by simp [dfC5, RSI_PERIOD]) rfl (by simp) rfl rfl
    (by norm_num [RSI_OVERSOLD]) (by norm_num [RSI_OVERBOUGHT])
  rw [h]
  norm_num [RSI_OVERSOLD, RSI_OVERBOUGHT]

/-- Helper: inserting into a list is never empty. -/
theorem sortInsert_ne_nil {α : Type} (le : α → α → Bool) (x : α)
    (l : List α) : sortInsert le x l ≠ [] := by
  cases l with
  | nil => simp [sortInsert]
  | cons y ys =>
    unfold sortInsert
    split <;> simp

/-- Helper: sorting preserves non-emptiness. -/
theorem sortRows_ne_nil {α : Type} (le : α → α → Bool) (l : List α)
    (h : l ≠ []) : sortRows le l ≠ [] := by
  cases l with
  | nil => exact absurd rfl h
  | cons x xs =>
    unfold sortRows
    exact sortInsert_ne_nil le x (sortRows le xs)

/-- Helper for C6: selection over a two-candidate chain reduces to the
pairwise ranking comparison. -/
theorem select_option_pair (symbol sig : String) (av : ℚ)
    (r1 r2 : OptRow) (hsig : sig = "BUY_CALL" ∨ sig = "BUY_PUT") :
    select_option symbol sig av (some [r1, r2]) =
      some (buildSelected symbol (option_type_from_signal sig)
        (if rankLe r1 r2 then r1 else r2)) := by
  have hguard : ¬(sig ≠ "BUY_CALL" ∧ sig ≠ "BUY_PUT") := by
    rcases hsig with h | h <;> simp [h]
  by_cases hb : rankLe r1 r2 <;>
    simp [select_option, hguard, sortRows, sortInsert, hb]

/-- C6: for a non-empty candidate chain, `select_option` returns the
contract built from the first row of the chain sorted by liquidity
descending then spread ascending; over two candidates, equal liquidity is
decided by the smaller spread, and unequal liquidity by the higher
liquidity regardless of spread. -/
theorem C6_selector_ranking (symbol sig : String) (av : ℚ)
    (rows : List OptRow) (r1 r2 : OptRow)
    (hsig : sig = "BUY_CALL" ∨ sig = "BUY_PUT") (hne : rows ≠ []) :
    (∃ best rest, sortRows rankLe rows = best :: rest ∧
      select_option symbol sig av (some rows)
        = some (buildSelected symbol (option_type_from_signal sig) best)) ∧
    (liquidity_score r1 = liquidity_score r2 →
      spread_score r2 < spread_score r1 →
      select_option symbol sig av (some [r1, r2])
        = some (buildSelected symbol (option_type_from_signal sig) r2)) ∧
    (liquidity_score r1 < liquidity_score r2 →
      select_option symbol sig av (some [r1, r2])
        = some (buildSelected symbol (option_type_from_signal sig) r2)) ∧
    (liquidity_score r2 < liquidity_score r1 →
      select_option symbol sig av (some [r1, r2])
        = some (buildSelected symbol (option_type_from_signal sig) r1)) := by
  have hguard : ¬(sig ≠ "BUY_CALL" ∧ sig ≠ "BUY_PUT") := by
    rcases hsig with h | h <;> simp [h]
  refine ⟨?_, ?_, ?_, ?_⟩
  · cases hs : sortRows rankLe rows with
    | nil => exact absurd hs (sortRows_ne_nil _ _ hne)
    | cons best rest =>
      refine ⟨best, rest, rfl, ?_⟩
      have hempty : rows.isEmpty = false := by
        cases rows with
        | nil => exact absurd rfl hne
        | cons a as => rfl
      simp [select_option, hguard, hempty, hs]
  · intro hliq hsp
    have hb : rankLe r1 r2 = false := by
      unfold rankLe
      rw [hliq]
      simp [lt_irrefl, not_le.mpr hsp]
    rw [select_option_pair symbol sig av r1 r2 hsig, hb]
    simp
  · intro hlt
    have hb : rankLe r1 r2 = false := by
      unfold rankLe
      simp [lt_asymm hlt, ne_of_lt hlt]
    rw [select_option_pair symbol sig av r1 r2 hsig, hb]
    simp
  · intro hlt
    have hb : rankLe r1 r2 = true := by
      unfold rankLe
      simp [hlt]
    rw [select_option_pair symbol sig av r1 r2 hsig, hb]
    simp

/-- Two concrete candidates: equal liquidity (120 each), tighter spread
on the second. -/
def rowC6a : OptRow :=
  ⟨some 1, some 2, some 100, some 10, none, none, none, none, none, none,
    some "OPTA", none, none⟩

def rowC6b : OptRow :=
  ⟨some (9 / 5), some 2, some 120, none, none, none, none, none, none,
    none, some "OPTB", none, none⟩

/-- C6 witness: equal liquidity scores, so the tighter-spread candidate
is selected. -/
theorem C6_witness :
    select_option "SPY" "BUY_CALL" 10000 (some [rowC6a, rowC6b])
      = some (buildSelected "SPY" "call" rowC6b) := by
  have h := (C6_selector_ranking "SPY" "BUY_CALL" 10000 [rowC6a, rowC6b]
    rowC6a rowC6b (Or.inl rfl) (by simp)).2.1
  have hliq : liquidity_score rowC6a = liquidity_score rowC6b := by
    norm_num [liquidity_score, rowC6a, rowC6b, pyInt]
  have hsp : spread_score rowC6b < spread_score rowC6a := by
    norm_num [spread_score, rowC6a, rowC6b]
  simpa [option_type_from_signal] using h hliq hsp
